import Mathlib

/- Formal model of the course-equivalency lookup engine of
   course_equivalency_app_dpg.py.  Program strings are modelled as lists of
   characters and the polars dataframe of loaded rows as a list of records;
   the regular-expression containment that polars performs is modelled by a
   small matcher covering the constructs the application generates. -/

namespace CourseEquiv

/-- Strings of the modelled program, as lists of characters. -/
abbrev Str := List Char

/-- Convert a Lean string literal into the model's string type. -/
def str (s : String) : Str := s.toList

/-- Python's whitespace class (regex \s over the ASCII range). -/
def isSpaceCh (c : Char) : Bool :=
  c == ' ' || c == '\t' || c == '\n' || c == '\r' || c == '\x0b' || c == '\x0c'

/-- The character class [A-Z] of the source's regexes. -/
def isUpperAZ (c : Char) : Bool :=
  decide ('A' ≤ c) && decide (c ≤ 'Z')

/-- The character class [0-9] (regex \d over ASCII). -/
def isDigitCh (c : Char) : Bool :=
  decide ('0' ≤ c) && decide (c ≤ '9')

/-- Word characters for the regex word boundary \b (ASCII range). -/
def isWordCh (c : Char) : Bool :=
  c.isAlphanum || c == '_'

/-- Python str.upper, as used on queries and on the normalized columns. -/
def upperStr (s : Str) : Str := s.map Char.toUpper

/-- Python str.strip: remove leading and trailing whitespace. -/
def trimStr (s : Str) : Str :=
  ((s.dropWhile isSpaceCh).reverse.dropWhile isSpaceCh).reverse

/-- Accumulator for splitWs: cur holds the current word reversed. -/
def splitWsAux : Str → Str → List Str
  | cur, [] => if cur.isEmpty then [] else [cur.reverse]
  | cur, c :: rest =>
    if isSpaceCh c then
      if cur.isEmpty then splitWsAux [] rest
      else cur.reverse :: splitWsAux [] rest
    else splitWsAux (c :: cur) rest

/-- Python str.split() with no argument: split on whitespace runs,
discarding empty pieces. -/
def splitWs (s : Str) : List Str := splitWsAux [] s

/-- Accumulator for collapseWs: the flag records whether the previous
character was part of a whitespace run already replaced. -/
def collapseWsAux : Bool → Str → Str
  | _, [] => []
  | inRun, c :: rest =>
    if isSpaceCh c then
      if inRun then collapseWsAux true rest
      else ' ' :: collapseWsAux true rest
    else c :: collapseWsAux false rest

/-- polars str.replace_all(\s+, " "): collapse each maximal whitespace run
to a single space. -/
def collapseWs (s : Str) : Str := collapseWsAux false s

/-- One item of a compiled regular expression.  The application only ever
builds patterns from literal characters, the any-character wildcard '.'
(present when a raw search token is handed to polars str.contains) and a
leading word boundary \b (the department-code filter). -/
inductive RItem
  | lit (c : Char)
  | dot
  | wordB
deriving DecidableEq

/-- Compile a string of literal characters (e.g. a re.escape'd token or a
metacharacter-free constant) into a pattern. -/
def litPat (t : Str) : List RItem := t.map RItem.lit

/-- Compile a raw query token as polars str.contains interprets it: '.'
is the any-character wildcard and the remaining characters are literal.
The application's tokens are uppercased whitespace-free strings; regex
operators other than '.', which no claim exercises, are outside the model
and treated literally. -/
def tokenPat (t : Str) : List RItem :=
  t.map (fun c => if c == '.' then RItem.dot else RItem.lit c)

/-- Word-boundary test between the previous character (none at the start
of the haystack) and the rest of the haystack. -/
def wbMatch (prev : Option Char) (s : Str) : Bool :=
  (match prev with | none => false | some c => isWordCh c)
    != (match s with | [] => false | d :: _ => isWordCh d)

/-- Match a compiled pattern against a prefix of the haystack; prev is
the character immediately before the current position. -/
def matchItems : List RItem → Option Char → Str → Bool
  | [], _, _ => true
  | RItem.wordB :: ps, prev, s => wbMatch prev s && matchItems ps prev s
  | RItem.lit c :: ps, _, d :: s => c == d && matchItems ps (some d) s
  | RItem.dot :: ps, _, d :: s => d != '\n' && matchItems ps (some d) s
  | _ :: _, _, [] => false

/-- Search for a pattern match starting at any position of the haystack. -/
def reSearchAux : List RItem → Option Char → Str → Bool
  | p, prev, [] => matchItems p prev []
  | p, prev, d :: s => matchItems p prev (d :: s) || reSearchAux p (some d) s

/-- Unanchored regex search, the semantics of polars str.contains. -/
def reSearch (p : List RItem) (s : Str) : Bool := reSearchAux p none s

/-- One row of the loaded dataset, holding the five required columns
"C-ID #", "C-ID Descriptor", "Institution", "Local Course Title(s)" and
"Local Dept. Name & Number".  The three normalized columns added by
load_data are derived functions below. -/
structure Rec where
  cid : Str
  descriptor : Str
  institution : Str
  localTitle : Str
  localDept : Str
deriving DecidableEq

/-- Institution_norm: the institution column uppercased. -/
def instNorm (r : Rec) : Str := upperStr r.institution

/-- Dept_norm: the department column uppercased with whitespace runs
collapsed to single spaces. -/
def deptNorm (r : Rec) : Str := collapseWs (upperStr r.localDept)

/-- Title_norm: the title column uppercased. -/
def titleNorm (r : Rec) : Str := upperStr r.localTitle

/-- HOME_INSTITUTION.upper(), i.e. "DE ANZA COLLEGE". -/
def homeNorm : Str := str "DE ANZA COLLEGE"

/-- The is_de_anza predicate: Institution_norm contains the uppercased
home-institution name (a metacharacter-free pattern). -/
def isHome (r : Rec) : Bool := reSearch (litPat homeNorm) (instNorm r)

/-- The token test of the institution filter and of the institution-token
classification: Institution_norm regex-contains the raw token. -/
def instTest (k : Str) (r : Rec) : Bool := reSearch (tokenPat k) (instNorm r)

/-- The title filter and titleCount test: Title_norm regex-contains the
raw token. -/
def titleTest (k : Str) (r : Rec) : Bool := reSearch (tokenPat k) (titleNorm r)

/-- The department filter and deptCount test: Dept_norm contains the
token at a word boundary, i.e. the pattern \b followed by the re.escape'd
(hence literal) token. -/
def deptTest (k : Str) (r : Rec) : Bool :=
  reSearch (RItem.wordB :: litPat k) (deptNorm r)

/-- smart_search's cid shape regex, re.match of
([A-Z]\x7b2,5\x7d)[\s-]+(\d+[A-Z]?)\s*(.*) anchored at both ends, applied
to the stripped uppercased query.  Returns the department code, the course
number (digits plus the optional trailing letter) and the stripped extra
text, or none when the shape does not match. -/
def cidParse (s : Str) : Option (Str × Str × Str) :=
  let letters := s.takeWhile isUpperAZ
  let rest1 := s.dropWhile isUpperAZ
  if 2 ≤ letters.length && letters.length ≤ 5 then
    let sep := rest1.takeWhile (fun c => isSpaceCh c || c == '-')
    let rest2 := rest1.dropWhile (fun c => isSpaceCh c || c == '-')
    if 1 ≤ sep.length then
      let digits := rest2.takeWhile isDigitCh
      let rest3 := rest2.dropWhile isDigitCh
      if 1 ≤ digits.length then
        let nr : Str × Str :=
          match rest3 with
          | c :: t => if isUpperAZ c then (digits ++ [c], t) else (digits, rest3)
          | [] => (digits, [])
        let e := nr.2.dropWhile isSpaceCh
        let e2 := if e.getLast? == some '\n' then e.dropLast else e
        if e2.contains '\n' then none
        else some (letters, nr.1, trimStr e2)
      else none
    else none
  else none

/-- The fast path's direct C-ID lookup: rows whose uppercased "C-ID #"
column contains the "DEPT NUMBER" string (a metacharacter-free pattern). -/
def directMatches (df : List Rec) (cidQuery : Str) : List Rec :=
  df.filter (fun r => reSearch (litPat cidQuery) (upperStr r.cid))

/-- The fast path's extra-keyword filtering: each trailing keyword must
match the normalized institution or title column. -/
def extraFilter (l : List Rec) (ks : List Str) : List Rec :=
  ks.foldl (fun acc k => acc.filter (fun r => instTest k r || titleTest k r)) l

/-- Reorder a result set home-institution rows first (the concatenation of
the de_anza_rows and other_rows filters; when other_rows is empty the
source returns de_anza_rows alone, which is the same list). -/
def partitionHome (l : List Rec) : List Rec :=
  l.filter isHome ++ l.filter (fun r => !isHome r)

/-- The query tokens that the classifier marks as institution tokens:
some record of the full dataset has the token in its normalized
institution column. -/
def instKeywords (df : List Rec) (kws : List Str) : List Str :=
  kws.filter (fun k => df.any (instTest k))

/-- The remaining, non-institution query tokens. -/
def nonInstKeywords (df : List Rec) (kws : List Str) : List Str :=
  kws.filter (fun k => !df.any (instTest k))

/-- Apply every institution-token filter to the full dataset. -/
def applyInstFilters (df : List Rec) (kws : List Str) : List Rec :=
  (instKeywords df kws).foldl (fun acc k => acc.filter (instTest k)) df

/-- The stopword set common_words of smart_search. -/
def commonWords : List Str :=
  [str "DE", str "LA", str "OF", str "AND", str "THE", str "FOR",
   str "IN", str "ON", str "AT", str "TO", str "A", str "AN"]

/-- dept_pattern: the token is 2 to 5 uppercase letters. -/
def isDeptShape (t : Str) : Bool :=
  (decide (2 ≤ t.length) && decide (t.length ≤ 5)) && t.all isUpperAZ

/-- dept_count: rows of the working set whose Dept_norm contains the token
at a word boundary. -/
def deptCount (w : List Rec) (k : Str) : Nat := (w.filter (deptTest k)).length

/-- title_count: rows of the working set whose Title_norm contains the
token. -/
def titleCount (w : List Rec) (k : Str) : Nat := (w.filter (titleTest k)).length

/-- Outcome of one iteration of the keyword-categorisation loop: the token
is appended to dept_keywords, appended to title_keywords, or (when the
department-shaped token has zero counts on both sides) appended to
neither. -/
inductive TokenClass
  | dept
  | title
  | dropped
deriving DecidableEq

/-- The decision of one iteration of the categorisation loop of
smart_search, lines 167-177 of the source: department-shaped non-stopword
tokens are sent to dept_keywords when dept_count > 0 and
title_count < dept_count * 10, else to title_keywords when
title_count > 0, else nowhere; all other tokens go to title_keywords. -/
def classifyToken (w : List Rec) (k : Str) : TokenClass :=
  if isDeptShape k = true ∧ k ∉ commonWords then
    if 0 < deptCount w k ∧ titleCount w k < deptCount w k * 10 then .dept
    else if 0 < titleCount w k then .title
    else .dropped
  else .title

/-- The categorisation loop: fold classifyToken over the non-institution
keywords in order, building dept_keywords and title_keywords. -/
def categorize (w : List Rec) : List Str → List Str × List Str
  | [] => ([], [])
  | k :: ks =>
    let rest := categorize w ks
    match classifyToken w k with
    | .dept => (k :: rest.1, rest.2)
    | .title => (rest.1, k :: rest.2)
    | .dropped => rest

/-- The general path's working set after the institution, department and
title filters (the value of results at line 186 of the source). -/
def filteredSet (df : List Rec) (kws : List Str) : List Rec :=
  ((categorize (applyInstFilters df kws) (nonInstKeywords df kws)).2).foldl
    (fun acc k => acc.filter (titleTest k))
    (((categorize (applyInstFilters df kws) (nonInstKeywords df kws)).1).foldl
      (fun acc k => acc.filter (deptTest k)) (applyInstFilters df kws))

/-- The distinct "C-ID #" values of the filtered set, as collected before
the expansion step. -/
def filteredCids (df : List Rec) (kws : List Str) : List Str :=
  ((filteredSet df kws).map Rec.cid).dedup

/-- The general keyword path of smart_search, lines 141-203: filter, then
(only when no institution token was found) expand by the distinct C-ID
values and reorder home rows first, then drop duplicate rows.  The final
step is polars unique on the five core columns called without
maintain_order, so the row order of the frame it returns is unspecified;
the model fixes the order-preserving List.dedup as one admissible
outcome, and no ordering guarantee of the code is asserted for values
downstream of this step. -/
def generalPath (df : List Rec) (kws : List Str) : List Rec :=
  if (filteredSet df kws).isEmpty then []
  else if (instKeywords df kws).isEmpty then
    if (filteredCids df kws).isEmpty then []
    else
      (partitionHome (df.filter (fun r => (filteredCids df kws).contains r.cid))).dedup
  else (filteredSet df kws).dedup

/-- smart_search: strip the query, reject short queries, try the C-ID
fast path and otherwise run the general keyword path. -/
def smart_search (df : List Rec) (query : Str) : List Rec :=
  let q := trimStr query
  if q.length < 2 then []
  else
    match cidParse (upperStr q) with
    | some (dept, num, extra) =>
      let direct := directMatches df (dept ++ [' '] ++ num)
      if direct.isEmpty then generalPath df (splitWs (upperStr q))
      else partitionHome (extraFilter direct (splitWs extra))
    | none => generalPath df (splitWs (upperStr q))

/-- Whether smart_search returns through the fast path: the query has the
C-ID shape and the direct C-ID lookup is non-empty. -/
def fastTaken (df : List Rec) (query : Str) : Bool :=
  match cidParse (upperStr (trimStr query)) with
  | some (dept, num, _) => !(directMatches df (dept ++ [' '] ++ num)).isEmpty
  | none => false

/-- The five required column names of load_data. -/
def REQUIRED_COLS : List Str :=
  [str "C-ID #", str "C-ID Descriptor", str "Institution",
   str "Local Course Title(s)", str "Local Dept. Name & Number"]

/-- Python sep.join for the model's strings. -/
def joinSep (sep : Str) : List Str → Str
  | [] => []
  | [x] => x
  | x :: y :: t => x ++ sep ++ joinSep sep (y :: t)

/-- The state of the data file as load_data observes it: absent, present
but rejected by the CSV reader (with the exception detail), or parsed into
a header (the column names) and a number of data rows. -/
inductive FileInput
  | missing (dir : Str)
  | unreadable (detail : Str)
  | parsed (cols : List Str) (height : Nat)

/-- load_data's validation, lines 36-72 of the source: error on a missing
file, an unreadable file, zero data rows, or absent required columns, with
the messages the source builds; on success the read table is kept (the
normalized columns it then adds are the derived functions instNorm,
deptNorm and titleNorm of this model). -/
def load_data : FileInput → Except Str (List Str × Nat)
  | .missing dir =>
    .error ((str "Data file not found: cid.csv\n\nPlace a file named 'cid.csv' in this folder:\n") ++ dir)
  | .unreadable detail =>
    .error ((str "Could not read cid.csv as CSV.\n\nMake sure the file is a valid CSV (comma-separated, UTF-8).\nDetail: ") ++ detail)
  | .parsed cols height =>
    if height = 0 then
      .error (str "cid.csv is empty.\n\nThe file must contain a header row and at least one data row.")
    else
      let missingCols := REQUIRED_COLS.filter (fun c => decide (c ∉ cols))
      if missingCols.isEmpty then .ok (cols, height)
      else
        .error ((str "cid.csv is missing required column(s).\n\nMissing: ")
          ++ joinSep (str ", ") missingCols
          ++ (str "\n\nRequired columns (exact names):\n")
          ++ joinSep (str "\n") (REQUIRED_COLS.map (fun c => (str "  • ") ++ c)))

/-- Lazy split of the extraction regex ([A-Z\s]+?)\s+([0-9].*): acc is the
group-1 prefix read so far; the first position where the remainder is a
non-empty whitespace run followed by a digit closes group 1 (no later
split can exist, because group-1 characters can never include a digit).
The extraction runs through polars' Rust regex engine, where the end
anchor matches end-of-text only and '.' never matches a newline, so any
newline after the digit makes the whole pattern fail. -/
def dnSplit (acc : Str) : Str → Option (Str × Str)
  | [] => none
  | c :: rest =>
    if isUpperAZ c || isSpaceCh c then
      let g1 := acc ++ [c]
      let ws := rest.takeWhile isSpaceCh
      let tl := rest.dropWhile isSpaceCh
      if 1 ≤ ws.length then
        match tl with
        | d :: t =>
          if isDigitCh d then
            if t.contains '\n' then none else some (g1, d :: t)
          else dnSplit g1 rest
        | [] => dnSplit g1 rest
      else dnSplit g1 rest
    else none

/-- The Dept/Number extraction of load_de_anza_courses: polars
str.extract with ([A-Z\s]+?)\s+([0-9].*) on the raw department-and-number
column, empty strings when there is no match, both groups stripped. -/
def extractDN (s : Str) : Str × Str :=
  match dnSplit [] s with
  | some (g1, g2) => (trimStr g1, trimStr g2)
  | none => ([], [])

/-- The derived Dept column of the home-course view. -/
def deptOf (r : Rec) : Str := (extractDN r.localDept).1

/-- The derived Number column of the home-course view. -/
def numOf (r : Rec) : Str := (extractDN r.localDept).2

/-- load_de_anza_courses: rows whose uppercased institution contains
"DE ANZA", with a non-empty "C-ID #" and non-empty extracted Dept and
Number. -/
def deAnzaCourses (df : List Rec) : List Rec :=
  ((df.filter (fun r => reSearch (litPat (str "DE ANZA")) (upperStr r.institution))).filter
      (fun r => !r.cid.isEmpty)).filter
    (fun r => !(deptOf r).isEmpty && !(numOf r).isEmpty)

/-- The home-course lookup of show_equivalencies, lines 541-549: Dept
equals the selected department and Number equals the selected course
number, or starts with it followed by a space, or followed by "+". -/
def equivMatches (df : List Rec) (department number : Str) : List Rec :=
  (deAnzaCourses df).filter (fun r =>
    deptOf r == department
      && (numOf r == number
        || (number ++ [' ']).isPrefixOf (numOf r)
        || (number ++ ['+']).isPrefixOf (numOf r)))

/-- The distinct "C-ID #" values of the matched home courses of a
(department, courseNumber) selection. -/
def equivCids (df : List Rec) (department number : Str) : List Str :=
  ((equivMatches df department number).map Rec.cid).dedup

/-- The rows show_equivalencies displays for a (department, courseNumber)
selection, lines 536-574: the empty list stands for each of the
message-only outcomes (course not found, no C-ID, no equivalents).  The
displayed frame is a plain filter of the dataset: this path applies no
home-first reordering and no deduplication. -/
def show_equivalencies (df : List Rec) (department number : Str) : List Rec :=
  if (equivMatches df department number).isEmpty then []
  else
    if (equivCids df department number).isEmpty
        || (equivCids df department number).head? == some [] then []
    else df.filter (fun r => (equivCids df department number).contains r.cid)

/-- A non-home row sharing C-ID "E1" with the home row below. -/
def fhRec : Rec := ⟨str "E1", str "D", str "Foothill College", str "T1", str "ACCT 1"⟩

/-- A home-institution row with C-ID "E1". -/
def daRec : Rec := ⟨str "E1", str "D", str "De Anza College", str "T2", str "ACCT 1B"⟩

/-- Dataset whose original order puts a non-home row before a home row. -/
def df1 : List Rec := [fhRec, daRec]

/-- A row whose title and department both avoid the token "XY". -/
def undecidedRec : Rec := ⟨str "E1", str "D", str "FOO", str "CALCULUS", str "MATH 1"⟩

/-- Singleton dataset for the undecidable-token scenario. -/
def df2 : List Rec := [undecidedRec]

/-- A row with an empty equivalency identifier matching the query "MATH". -/
def emptyCidA : Rec := ⟨[], str "D", str "AAA", str "CALC", str "MATH 1"⟩

/-- A second row with an empty identifier, matching nothing in the query. -/
def emptyCidB : Rec := ⟨[], str "D", str "BBB", str "XYZ", str "HIST 2"⟩

/-- Dataset whose filtered set carries an empty equivalency identifier. -/
def df3 : List Rec := [emptyCidA, emptyCidB]

/-- A non-home row whose C-ID is "ACCT 110". -/
def acctRec : Rec := ⟨str "ACCT 110", str "D", str "Foothill", str "FIN ACCT", str "ACCT 1A"⟩

/-- Dataset holding the same row twice. -/
def df4 : List Rec := [acctRec, acctRec]

/-- A row where "AB" occurs once as a leading department word. -/
def abDeptRec : Rec := ⟨str "E1", str "D", str "ZZZ", str "NOTHING", str "AB 1"⟩

/-- A row whose title contains "AB" as a substring. -/
def abTitleRec : Rec := ⟨str "E2", str "D", str "ZZZ", str "LABS", str "MATH 2"⟩

/-- Synthetic dataset of the classifier tie-break: one department
occurrence of "AB" against fifty title occurrences. -/
def c5df : List Rec := abDeptRec :: List.replicate 50 abTitleRec

/-- A home row with the composite course-number field "6A + BIOL 6C". -/
def c7rec : Rec :=
  ⟨str "BIO 135", str "D", str "De Anza College", str "General Biology",
   str "BIOL 6A + BIOL 6C"⟩

/-- Singleton dataset for composite-number matching. -/
def c7df : List Rec := [c7rec]

/-- A row whose title "AXB" matches the token "A.B" as a regex but not as
a literal substring. -/
def dotRec : Rec := ⟨str "E1", str "D", str "ZZZ", str "AXB", str "MATH 1"⟩

/-- Singleton dataset for the regex-metacharacter scenario. -/
def df9 : List Rec := [dotRec]

/-- A row selected by the department token "MATH". -/
def mathRec : Rec := ⟨str "E1", str "D", str "AAA", str "CALC", str "MATH 1"⟩

/-- A row from another institution sharing the identifier "E1". -/
def otherInstRec : Rec := ⟨str "E1", str "D", str "BBB", str "INTRO", str "BIOL 2"⟩

/-- Dataset where "MATH" selects the first row and the second row shares
its identifier "E1". -/
def df3w : List Rec := [mathRec, otherInstRec]

/- ------------------------------------------------------------------ -/
/- Helper lemmas -/
/- ------------------------------------------------------------------ -/

theorem foldl_filter_sublist {β : Type} (f : β → Rec → Bool) :
    ∀ (ks : List β) (l : List Rec),
      List.Sublist (ks.foldl (fun acc k => acc.filter (f k)) l) l := by
  intro ks
  induction ks with
  | nil => intro l; exact List.Sublist.refl l
  | cons k ks ih =>
    intro l
    exact (ih (l.filter (f k))).trans (List.filter_sublist l)

theorem matchItems_lit (t : Str) :
    ∀ (prev : Option Char) (s : Str), matchItems (litPat t) prev s = t.isPrefixOf s := by
  induction t with
  | nil => intro prev s; cases s <;> rfl
  | cons c t ih =>
    intro prev s
    cases s with
    | nil => rfl
    | cons d s' =>
      show (c == d && matchItems (litPat t) (some d) s') = (c == d && t.isPrefixOf s')
      rw [ih]

theorem reSearchAux_lit (t : Str) :
    ∀ (s : Str) (prev : Option Char), reSearchAux (litPat t) prev s = true ↔ t <:+: s := by
  intro s
  induction s with
  | nil =>
    intro prev
    simp [reSearchAux, matchItems_lit]
  | cons d s' ih =>
    intro prev
    simp only [reSearchAux, matchItems_lit, Bool.or_eq_true, ih,
      List.isPrefixOf_iff_prefix, List.infix_cons_iff]

theorem reSearch_lit (t s : Str) : reSearch (litPat t) s = true ↔ t <:+: s :=
  reSearchAux_lit t s none

theorem smart_search_fast (df : List Rec) (q d n ex : Str)
    (h1 : ¬ (trimStr q).length < 2)
    (h2 : cidParse (upperStr (trimStr q)) = some (d, n, ex))
    (h3 : (directMatches df (d ++ [' '] ++ n)).isEmpty = false) :
    smart_search df q
      = partitionHome (extraFilter (directMatches df (d ++ [' '] ++ n)) (splitWs ex)) := by
  unfold smart_search
  simp only [h2, if_neg h1, h3, Bool.false_eq_true, if_false]

theorem smart_search_gen (df : List Rec) (q : Str)
    (h1 : ¬ (trimStr q).length < 2)
    (h2 : fastTaken df q = false) :
    smart_search df q = generalPath df (splitWs (upperStr (trimStr q))) := by
  unfold fastTaken at h2
  unfold smart_search
  cases hc : cidParse (upperStr (trimStr q)) with
  | none => simp only [hc, if_neg h1]
  | some v =>
    obtain ⟨d, n, ex⟩ := v
    rw [hc] at h2
    simp only [Bool.not_eq_false'] at h2
    simp only [hc, if_neg h1, h2, if_true]

theorem mem_joinSep_isInfix (sep : Str) :
    ∀ (L : List Str) (x : Str), x ∈ L → x <:+: joinSep sep L := by
  intro L
  induction L with
  | nil => intro x hx; exact absurd hx (List.not_mem_nil x)
  | cons a t ih =>
    intro x hx
    cases t with
    | nil =>
      rw [List.mem_singleton] at hx
      subst hx
      exact List.infix_refl x
    | cons b t' =>
      rcases List.mem_cons.1 hx with h | h
      · subst h
        exact ⟨[], sep ++ joinSep sep (b :: t'), by simp [joinSep, List.append_assoc]⟩
      · exact (ih x h).trans
          ( List.IsSuffix.isInfix (List.suffix_append (a ++ sep) (joinSep sep (b :: t'))))

theorem mem_partitionHome (r : Rec) (l : List Rec) :
    r ∈ partitionHome l ↔ r ∈ l := by
  unfold partitionHome
  rw [List.mem_append, List.mem_filter, List.mem_filter]
  cases h : isHome r <;> simp [h]

theorem partitioned_decomp (l base res : List Rec)
    (hl : List.Sublist l base) (hres : List.Sublist res (partitionHome l)) :
    ∃ a b, res = a ++ b ∧ (∀ r ∈ a, isHome r = true) ∧ (∀ r ∈ b, isHome r = false)
      ∧ List.Sublist a base ∧ List.Sublist b base := by
  unfold partitionHome at hres
  obtain ⟨a, b, heq, ha, hb⟩ := List.sublist_append_iff.1 hres
  refine ⟨a, b, heq, ?_, ?_, ?_, ?_⟩
  · intro r hr
    exact (List.mem_filter.1 (ha.mem hr)).2
  · intro r hr
    have h2 := (List.mem_filter.1 (hb.mem hr)).2
    simpa using h2
  · exact (ha.trans (List.filter_sublist l)).trans hl
  · exact (hb.trans (List.filter_sublist l)).trans hl

/- ------------------------------------------------------------------ -/
/- Claim theorems -/
/- ------------------------------------------------------------------ -/

/-- Claim C5: for a token of the 2-to-5-uppercase-letter shape that is not
a stopword, the categorisation loop marks it a department token exactly
when deptCount > 0 and titleCount < deptCount * 10, and otherwise marks
it a title token whenever titleCount > 0; in the synthetic tie-break
dataset the token "AB" has deptCount 1 and titleCount 50 and is marked a
title token. -/
theorem c5_classifier_boundary :
    (∀ (w : List Rec) (k : Str), isDeptShape k = true → k ∉ commonWords →
        (classifyToken w k = TokenClass.dept
            ↔ 0 < deptCount w k ∧ titleCount w k < deptCount w k * 10)
          ∧ (¬(0 < deptCount w k ∧ titleCount w k < deptCount w k * 10) →
              0 < titleCount w k → classifyToken w k = TokenClass.title))
      ∧ (deptCount c5df (str "AB") = 1 ∧ titleCount c5df (str "AB") = 50
          ∧ classifyToken c5df (str "AB") = TokenClass.title) := by
  constructor
  · intro w k hs hc
    constructor
    · unfold classifyToken
      rw [if_pos ⟨hs, hc⟩]
      split_ifs with h1 h2 <;> simp_all
      omega
    · intro hn ht
      unfold classifyToken
      rw [if_pos ⟨hs, hc⟩, if_neg hn, if_pos ht]
  · exact ⟨by decide, by decide, by decide⟩

/-- Witness for C5 at the synthetic dataset and the token "AB". -/
theorem c5_classifier_boundary_witness :
    classifyToken c5df (str "AB") = TokenClass.dept
      ↔ 0 < deptCount c5df (str "AB")
          ∧ titleCount c5df (str "AB") < deptCount c5df (str "AB") * 10 :=
  (c5_classifier_boundary.1 c5df (str "AB") (by decide) (by decide)).1

/-- Claim C6: when the direct C-ID lookup for "ACCT 110" is non-empty, the
queries "ACCT 110", "ACCT-110" and "ACCT  110" produce identical result
sets: the shape regex accepts any non-empty run of whitespace and hyphens
and the fast path searches for the normalized "ACCT 110" in every case. -/
theorem c6_separator_equivalence (df : List Rec)
    (h : (directMatches df (str "ACCT 110")).isEmpty = false) :
    smart_search df (str "ACCT 110") = smart_search df (str "ACCT-110")
      ∧ smart_search df (str "ACCT 110") = smart_search df (str "ACCT  110") := by
  have hq : (str "ACCT") ++ [' '] ++ (str "110") = str "ACCT 110" := by decide
  have h3 : (directMatches df ((str "ACCT") ++ [' '] ++ (str "110"))).isEmpty = false := by
    rw [hq]; exact h
  have e1 := smart_search_fast df (str "ACCT 110") (str "ACCT") (str "110") []
    (by decide) (by decide) h3
  have e2 := smart_search_fast df (str "ACCT-110") (str "ACCT") (str "110") []
    (by decide) (by decide) h3
  have e3 := smart_search_fast df (str "ACCT  110") (str "ACCT") (str "110") []
    (by decide) (by decide) h3
  exact ⟨e1.trans e2.symm, e1.trans e3.symm⟩

/-- Witness for C6 on a dataset whose C-ID column holds "ACCT 110". -/
theorem c6_separator_equivalence_witness :
    smart_search df4 (str "ACCT 110") = smart_search df4 (str "ACCT-110")
      ∧ smart_search df4 (str "ACCT 110") = smart_search df4 (str "ACCT  110") :=
  c6_separator_equivalence df4 (by decide)

/-- Claim C7: the home-course lookup of show_equivalencies matches exactly
the home-index records whose extracted department equals the selection and
whose extracted course-number field equals the selected number or starts
with it followed by a space or by "+"; in particular the composite record
"BIOL 6A + BIOL 6C" is found when "6A" is selected in department "BIOL". -/
theorem c7_composite_number :
    (∀ (df : List Rec) (department number : Str) (r : Rec),
        r ∈ equivMatches df department number
          ↔ r ∈ deAnzaCourses df ∧ deptOf r = department
              ∧ (numOf r = number ∨ (number ++ [' ']) <+: numOf r
                  ∨ (number ++ ['+']) <+: numOf r))
      ∧ equivMatches c7df (str "BIOL") (str "6A") = [c7rec] := by
  constructor
  · intro df department number r
    unfold equivMatches
    rw [List.mem_filter]
    simp only [Bool.and_eq_true, Bool.or_eq_true, beq_iff_eq,
      List.isPrefixOf_iff_prefix, and_assoc, or_assoc]
  · decide

/-- Claim C10: whenever the query has the C-ID shape and the direct C-ID
lookup is non-empty, smart_search returns the home-first partition of the
extra-keyword-filtered direct matches; in particular when the extra
keywords filter those matches down to nothing the result is empty and the
general keyword path is never retried. -/
theorem c10_no_fallthrough (df : List Rec) (q d n ex : Str)
    (h1 : ¬ (trimStr q).length < 2)
    (h2 : cidParse (upperStr (trimStr q)) = some (d, n, ex))
    (h3 : (directMatches df (d ++ [' '] ++ n)).isEmpty = false) :
    smart_search df q
        = partitionHome (extraFilter (directMatches df (d ++ [' '] ++ n)) (splitWs ex))
      ∧ (extraFilter (directMatches df (d ++ [' '] ++ n)) (splitWs ex) = [] →
          smart_search df q = []) := by
  have e := smart_search_fast df q d n ex h1 h2 h3
  refine ⟨e, fun hz => ?_⟩
  rw [e, hz]
  rfl

/-- Witness for C10: on the duplicate-row dataset the query
"ACCT 110 QQQQ" has a non-empty direct match but the extra keyword
matches nothing, and the search returns the empty result. -/
theorem c10_no_fallthrough_witness :
    smart_search df4 (str "ACCT 110 QQQQ") = [] :=
  (c10_no_fallthrough df4 (str "ACCT 110 QQQQ") (str "ACCT") (str "110") (str "QQQQ")
    (by decide) (by decide) (by decide)).2 (by decide)

/-- Claim C2 counterexample: in the singleton dataset the token "XY" has
the department shape, is not a stopword, and has zero department and zero
title counts, yet the search result keeps the only record even though its
title does not contain "XY" — so the token was not applied as a title
filter (that filter would have emptied the result); it was silently
dropped. -/
theorem c2_counterexample :
    isDeptShape (str "XY") = true
      ∧ (str "XY") ∉ commonWords
      ∧ instKeywords df2 [str "XY"] = []
      ∧ deptCount df2 (str "XY") = 0
      ∧ titleCount df2 (str "XY") = 0
      ∧ titleTest (str "XY") undecidedRec = false
      ∧ smart_search df2 (str "XY") = [undecidedRec] := by
  refine ⟨by decide, by decide, by decide, by decide, by decide, by decide, by decide⟩

/-- Claim C2 amended: when the classification heuristic cannot decide
(zero department and zero title counts for a department-shaped
non-stopword token), the categorisation loop appends the token to neither
keyword list — the token is silently dropped and contributes no filter. -/
theorem c2_undecided_token_dropped (w : List Rec) (ks : List Str) (k : Str)
    (h1 : isDeptShape k = true) (h2 : k ∉ commonWords)
    (h3 : deptCount w k = 0) (h4 : titleCount w k = 0) :
    categorize w (k :: ks) = categorize w ks := by
  have hc : classifyToken w k = TokenClass.dropped := by
    unfold classifyToken
    rw [if_pos ⟨h1, h2⟩, if_neg (by omega), if_neg (by omega)]
  simp only [categorize, hc]

/-- Witness for the amended C2 at the singleton dataset and token "XY". -/
theorem c2_undecided_token_dropped_witness :
    categorize df2 [str "XY"] = categorize df2 [] :=
  c2_undecided_token_dropped df2 [] (str "XY")
    (by decide) (by decide) (by decide) (by decide)

/-- Claim C9 counterexample: the token "A.B" matches the title "AXB" under
the containment test the code performs (polars regex containment, where
'.' is a wildcard) although "A.B" is not a literal substring of "AXB";
searching for "A.B" returns the record whose title is "AXB". -/
theorem c9_counterexample :
    reSearch (tokenPat (str "A.B")) (str "AXB") = true
      ∧ ¬ (str "A.B") <:+: (str "AXB")
      ∧ smart_search df9 (str "A.B") = [dotRec]
      ∧ ¬ (str "A.B") <:+: titleNorm dotRec := by
  refine ⟨by decide, by decide, by decide, by decide⟩

/-- Claim C9 amended: the institution and title containment tests are
regex containment; for a token whose characters are all alphanumeric (in
particular free of regex metacharacters) the test coincides with literal
contiguous-substring containment. -/
theorem c9_plain_token_substring (t s : Str) (h : t.all Char.isAlphanum = true) :
    reSearch (tokenPat t) s = true ↔ t <:+: s := by
  have hp : tokenPat t = litPat t := by
    unfold tokenPat litPat
    apply List.map_congr_left
    intro c hcm
    have ha : Char.isAlphanum c = true := List.all_eq_true.1 h c hcm
    have hne : (c == '.') = false := by
      cases hcd : c == '.'
      · rfl
      · exfalso
        have hce : c = '.' := eq_of_beq hcd
        rw [hce] at ha
        exact absurd ha (by decide)
    rw [hne]
    rfl
  rw [hp]
  exact reSearch_lit t s

/-- Witness for the amended C9 at a concrete token and haystack. -/
theorem c9_plain_token_substring_witness :
    reSearch (tokenPat (str "ACCT")) (str "XACCTY") = true
      ↔ (str "ACCT") <:+: (str "XACCTY") :=
  c9_plain_token_substring (str "ACCT") (str "XACCTY") (by decide)

/-- Claim C4 counterexample: the fast path performs no deduplication; on a
dataset holding the same row twice, the query "ACCT 110" returns the row
twice, so a result set can hold two rows identical in all five core
fields. -/
theorem c4_counterexample :
    smart_search df4 (str "ACCT 110") = [acctRec, acctRec]
      ∧ ¬ (smart_search df4 (str "ACCT 110")).Nodup := by
  refine ⟨by decide, by decide⟩

/-- Claim C4 amended: deduplication holds on the general keyword path
only: whenever the fast path is not taken, the result set of smart_search
has no two rows identical in all five core fields (rows of the model are
exactly those fields). -/
theorem c4_general_path_dedup (df : List Rec) (q : Str)
    (h : fastTaken df q = false) : (smart_search df q).Nodup := by
  by_cases h1 : (trimStr q).length < 2
  · unfold smart_search
    rw [if_pos h1]
    exact List.nodup_nil
  · rw [smart_search_gen df q h1 h]
    unfold generalPath
    split_ifs <;> first
      | exact List.nodup_nil
      | exact List.nodup_dedup _

/-- Witness for the amended C4 at the singleton dataset and query "XY". -/
theorem c4_general_path_dedup_witness :
    (smart_search df2 (str "XY")).Nodup :=
  c4_general_path_dedup df2 (str "XY") (by decide)

/-- Claim C3 counterexample: for the query "MATH" on a dataset whose
filtered set is one record carrying the empty equivalency identifier, the
expansion step still runs — the result adds the second record (which
matches no filter of the query) merely because its identifier is also
empty — contradicting that expansion is skipped whenever one of the
identifiers is empty. -/
theorem c3_counterexample :
    filteredSet df3 [str "MATH"] = [emptyCidA]
      ∧ Rec.cid emptyCidA = []
      ∧ splitWs (upperStr (trimStr (str "MATH"))) = [str "MATH"]
      ∧ instKeywords df3 [str "MATH"] = []
      ∧ smart_search df3 (str "MATH") = [emptyCidA, emptyCidB]
      ∧ titleTest (str "MATH") emptyCidB = false
      ∧ deptTest (str "MATH") emptyCidB = false := by
  refine ⟨by decide, by decide, by decide, by decide, by decide, by decide, by decide⟩

/-- Claim C3 amended: when the query holds no institution token and the
fast path is not taken, every dataset record whose equivalency identifier
occurs among the identifiers of the filtered set belongs to the result;
the expansion is never skipped, not even when an identifier is empty. -/
theorem c3_expansion_membership (df : List Rec) (q : Str) (r : Rec)
    (h1 : ¬ (trimStr q).length < 2)
    (h2 : fastTaken df q = false)
    (h3 : instKeywords df (splitWs (upperStr (trimStr q))) = [])
    (h4 : r ∈ df)
    (h5 : r.cid ∈ (filteredSet df (splitWs (upperStr (trimStr q)))).map Rec.cid) :
    r ∈ smart_search df q := by
  rw [smart_search_gen df q h1 h2]
  have hfs : (filteredSet df (splitWs (upperStr (trimStr q)))).isEmpty = false := by
    rw [List.isEmpty_eq_false]
    rcases List.mem_map.1 h5 with ⟨x, hx, _⟩
    exact List.ne_nil_of_mem hx
  have hcid : r.cid ∈ filteredCids df (splitWs (upperStr (trimStr q))) := by
    unfold filteredCids
    exact List.mem_dedup.2 h5
  have hcids : (filteredCids df (splitWs (upperStr (trimStr q)))).isEmpty = false := by
    rw [List.isEmpty_eq_false]
    exact List.ne_nil_of_mem hcid
  unfold generalPath
  simp only [hfs, h3, hcids, List.isEmpty_nil, Bool.false_eq_true, if_false, if_true]
  rw [List.mem_dedup, mem_partitionHome, List.mem_filter]
  refine ⟨h4, ?_⟩
  simpa using hcid

/-- Witness for the amended C3: the second institution's record is pulled
into the result of the department-only query "MATH". -/
theorem c3_expansion_membership_witness :
    otherInstRec ∈ smart_search df3w (str "MATH") :=
  c3_expansion_membership df3w (str "MATH") otherInstRec
    (by decide) (by decide) (by decide) (by decide) (by decide)

/-- Claim C1 counterexample: the (department, courseNumber) selection
path returns the dataset filter unchanged — no home-first reordering,
deterministically, since no step of that path touches row order — so a
non-home record precedes a home record in its result.  For the query
"COLLEGE" the institution-token branch likewise builds no home-first
order before handing the filtered set to the final unique call. -/
theorem c1_counterexample :
    show_equivalencies df1 (str "ACCT") (str "1B") = [fhRec, daRec]
      ∧ isHome fhRec = false
      ∧ isHome daRec = true
      ∧ splitWs (upperStr (trimStr (str "COLLEGE"))) = [str "COLLEGE"]
      ∧ instKeywords df1 [str "COLLEGE"] = [str "COLLEGE"]
      ∧ filteredSet df1 [str "COLLEGE"] = [fhRec, daRec] := by
  refine ⟨by decide, by decide, by decide, by decide, by decide, by decide⟩

/-- Claim C1 amended: on the fast path — which performs no deduplication —
home rows precede non-home rows and each partition preserves the dataset
order (each is a sublist of the dataset); the selection path returns a
plain filter of the dataset, i.e. original dataset order with no
home-first reordering.  No ordering invariant is asserted for the general
keyword path, whose result passes through a final polars unique call made
without maintain_order, after which the row order is unspecified. -/
theorem c1_partition_paths :
    (∀ (df : List Rec) (q : Str), fastTaken df q = true →
        ∃ a b, smart_search df q = a ++ b
          ∧ (∀ r ∈ a, isHome r = true) ∧ (∀ r ∈ b, isHome r = false)
          ∧ List.Sublist a df ∧ List.Sublist b df)
      ∧ (∀ (df : List Rec) (department number : Str),
          ∃ p : Rec → Bool, show_equivalencies df department number = df.filter p) := by
  constructor
  · intro df q h
    by_cases h1 : (trimStr q).length < 2
    · refine ⟨[], [], ?_, by simp, by simp, List.nil_sublist df, List.nil_sublist df⟩
      unfold smart_search
      rw [if_pos h1]
      rfl
    · unfold fastTaken at h
      cases hc : cidParse (upperStr (trimStr q)) with
      | none =>
        rw [hc] at h
        exact absurd h (by simp)
      | some v =>
        obtain ⟨d, n, ex⟩ := v
        rw [hc] at h
        have hft' : (directMatches df (d ++ [' '] ++ n)).isEmpty = false := by
          simpa using h
        rw [smart_search_fast df q d n ex h1 hc hft']
        have hsub : List.Sublist
            (extraFilter (directMatches df (d ++ [' '] ++ n)) (splitWs ex)) df :=
          (foldl_filter_sublist (fun k r => instTest k r || titleTest k r)
            (splitWs ex) (directMatches df (d ++ [' '] ++ n))).trans
            (List.filter_sublist df)
        exact partitioned_decomp _ df _ hsub (List.Sublist.refl _)
  · intro df department number
    unfold show_equivalencies
    split_ifs with hA hB
    · exact ⟨fun _ => false, by simp⟩
    · exact ⟨fun _ => false, by simp⟩
    · exact ⟨_, rfl⟩

/-- Witness for the amended C1: the fast-path partition at a concrete
dataset and query, and the selection path as a filter of the dataset. -/
theorem c1_partition_paths_witness :
    (∃ a b, smart_search df4 (str "ACCT 110") = a ++ b
        ∧ (∀ r ∈ a, isHome r = true) ∧ (∀ r ∈ b, isHome r = false)
        ∧ List.Sublist a df4 ∧ List.Sublist b df4)
      ∧ (∃ p : Rec → Bool,
          show_equivalencies df1 (str "ACCT") (str "1B") = df1.filter p) :=
  ⟨c1_partition_paths.1 df4 (str "ACCT 110") (by decide),
   c1_partition_paths.2 df1 (str "ACCT") (str "1B")⟩

/-- Claim C8: load_data fails exactly on a missing file (with a message
naming cid.csv and the expected directory), an unreadable file, zero data
rows, or absent required columns; the missing-column message carries each
missing column name verbatim and every name of the required-column list. -/
theorem c8_loader_validation :
    (∀ dir, ∃ msg, load_data (FileInput.missing dir) = Except.error msg
        ∧ (str "cid.csv") <:+: msg ∧ dir <:+: msg)
      ∧ (∀ detail, ∃ msg, load_data (FileInput.unreadable detail) = Except.error msg)
      ∧ (∀ cols, ∃ msg, load_data (FileInput.parsed cols 0) = Except.error msg)
      ∧ (∀ cols h, 0 < h →
          ((∃ t, load_data (FileInput.parsed cols h) = Except.ok t)
            ↔ ∀ c ∈ REQUIRED_COLS, c ∈ cols))
      ∧ (∀ cols h, 0 < h → (∃ c ∈ REQUIRED_COLS, c ∉ cols) →
          ∃ msg, load_data (FileInput.parsed cols h) = Except.error msg
            ∧ (∀ c ∈ REQUIRED_COLS, c ∉ cols → c <:+: msg)
            ∧ (∀ c ∈ REQUIRED_COLS, c <:+: msg)) := by
  refine ⟨?_, ?_, ?_, ?_, ?_⟩
  · intro dir
    refine ⟨_, rfl, ?_, ?_⟩
    · have hpre := List.prefix_append
        (str "Data file not found: cid.csv\n\nPlace a file named 'cid.csv' in this folder:\n") dir
      exact (show (str "cid.csv")
          <:+: (str "Data file not found: cid.csv\n\nPlace a file named 'cid.csv' in this folder:\n")
        by decide).trans ( List.IsPrefix.isInfix hpre)
    · exact List.IsSuffix.isInfix (List.suffix_append _ dir)
  · intro detail
    exact ⟨_, rfl⟩
  · intro cols
    exact ⟨_, rfl⟩
  · intro cols h hh
    simp only [load_data]
    rw [if_neg (by omega : ¬ h = 0)]
    constructor
    · rintro ⟨t, ht⟩ c hcin
      by_contra hnc
      have hm : c ∈ REQUIRED_COLS.filter (fun c => decide (c ∉ cols)) :=
        List.mem_filter.2 ⟨hcin, by simpa using hnc⟩
      have hne : (REQUIRED_COLS.filter (fun c => decide (c ∉ cols))).isEmpty = false := by
        rw [List.isEmpty_eq_false]
        exact List.ne_nil_of_mem hm
      rw [hne] at ht
      simp at ht
    · intro hall
      have hem : (REQUIRED_COLS.filter (fun c => decide (c ∉ cols))).isEmpty = true := by
        rw [List.isEmpty_iff, List.filter_eq_nil_iff]
        intro c hcin
        simp [hall c hcin]
      refine ⟨(cols, h), ?_⟩
      rw [hem]
      rfl
  · intro cols h hh hex
    simp only [load_data]
    rw [if_neg (by omega : ¬ h = 0)]
    have hne : (REQUIRED_COLS.filter (fun c => decide (c ∉ cols))).isEmpty = false := by
      rw [List.isEmpty_eq_false]
      obtain ⟨c, hcin, hnc⟩ := hex
      exact List.ne_nil_of_mem (List.mem_filter.2 ⟨hcin, by simpa using hnc⟩)
    rw [hne]
    simp only [Bool.false_eq_true, if_false]
    refine ⟨_, rfl, ?_, ?_⟩
    · intro c hcin hnc
      have hm : c ∈ REQUIRED_COLS.filter (fun c => decide (c ∉ cols)) :=
        List.mem_filter.2 ⟨hcin, by simpa using hnc⟩
      have h1 := mem_joinSep_isInfix (str ", ")
        (REQUIRED_COLS.filter (fun c => decide (c ∉ cols))) c hm
      exact h1.trans
        ⟨str "cid.csv is missing required column(s).\n\nMissing: ",
          (str "\n\nRequired columns (exact names):\n")
            ++ joinSep (str "\n") (REQUIRED_COLS.map (fun c => (str "  • ") ++ c)),
          by simp [List.append_assoc]⟩
    · intro c hcin
      have h2 := mem_joinSep_isInfix (str "\n")
        (REQUIRED_COLS.map (fun c => (str "  • ") ++ c)) ((str "  • ") ++ c)
        (List.mem_map_of_mem _ hcin)
      have h3 : c <:+: (str "  • ") ++ c := List.IsSuffix.isInfix (List.suffix_append _ c)
      exact (h3.trans h2).trans ( List.IsSuffix.isInfix (List.suffix_append _ _))

/-- Witness for C8: the full column set loads, and a header holding only
"C-ID #" yields an error message carrying every missing column name and
the full required list. -/
theorem c8_loader_validation_witness :
    ((∃ t, load_data (FileInput.parsed REQUIRED_COLS 1) = Except.ok t)
        ↔ ∀ c ∈ REQUIRED_COLS, c ∈ REQUIRED_COLS)
      ∧ (∃ msg, load_data (FileInput.parsed [str "C-ID #"] 1) = Except.error msg
          ∧ (∀ c ∈ REQUIRED_COLS, c ∉ [str "C-ID #"] → c <:+: msg)
          ∧ (∀ c ∈ REQUIRED_COLS, c <:+: msg)) :=
  ⟨c8_loader_validation.2.2.2.1 REQUIRED_COLS 1 (by decide),
   c8_loader_validation.2.2.2.2 [str "C-ID #"] 1 (by decide)
     ⟨str "Institution", by decide, by decide⟩⟩

end CourseEquiv
